import Mathlib

/-!
Verification development for the voice-memo Streamlit application
(`voice_memo_app.py`).  The Python functions relevant to the claims are
shallowly embedded as executable Lean definitions; outcomes of external
effects (OpenAI API calls, `ffmpeg`/`ffprobe` subprocesses, the file
system) are passed in explicitly as oracle parameters, so every embedded
function is a pure, total Lean function.

Python strings are modelled as Lean `String`, and the Python string
primitives used by the app (`s[:n]`, `s.lower()`, `x in s`, `s.strip()`,
`s.zfill(n)`, `"sep".join(...)`) are embedded as operations on the
underlying `List Char` (`String.data`), mirroring Python's per-character
(code-point) semantics.
-/

namespace VoiceMemo

/-- Python slice `s[:n]` : the first `n` characters of `s` (all of `s`
when `n` exceeds its length). -/
def pySlice (s : String) (n : Nat) : String :=
  ⟨s.data.take n⟩

/-- Python `len(s)` : the number of characters (code points) of `s`. -/
def pyLen (s : String) : Nat :=
  s.data.length

/-- Python `s.lower()`, restricted to the ASCII case mapping, which is
all the app's error-message matching needs. -/
def pyLower (s : String) : String :=
  ⟨s.data.map Char.toLower⟩

/-- Whether the list `p` occurs at the very front of `l`. -/
def headMatches : List Char → List Char → Bool
  | [], _ => true
  | _ :: _, [] => false
  | a :: as, b :: bs => a == b && headMatches as bs

/-- Whether the list `p` occurs as a contiguous sublist of `l`
(helper for the Python `in` operator on strings). -/
def subOccurs (p : List Char) : List Char → Bool
  | [] => headMatches p []
  | l@(_ :: t) => headMatches p l || subOccurs p t

/-- Python `needle in hay` for strings: contiguous-substring test. -/
def pyIn (needle hay : String) : Bool :=
  subOccurs needle.data hay.data

/-- Characters stripped by Python `str.strip()` with no arguments
(whitespace; the app only ever feeds it ASCII whitespace). -/
def pyStrip (s : String) : String :=
  ⟨((s.data.dropWhile Char.isWhitespace).reverse.dropWhile Char.isWhitespace).reverse⟩

/-- Python `"sep".join(parts)`. -/
def pyJoin (sep : String) (parts : List String) : String :=
  String.intercalate sep parts

/-- Python truthiness of an optional string (`None` and `""` are falsy). -/
def pyTruthy : Option String → Bool
  | none => false
  | some s => s ≠ ""

/- ───────────────────────────────────────────
   Character budgets (voice_memo_app.py lines 29-31)
   ─────────────────────────────────────────── -/

def MAX_TRANSCRIPT_CHARS : Nat := 12000
def MAX_MATERIAL_CHARS : Nat := 3000
def MAX_REPORT_CHARS : Nat := 4000

/- ───────────────────────────────────────────
   compress_transcript (lines 34-69)
   ─────────────────────────────────────────── -/

/-- The sampled excerpt `compress_transcript` builds from a long text:
`text[:4000] + "\n...(中略)...\n" + text[third:third+4000] +
"\n...(中略)...\n" + text[-4000:]` with `third = len(text) // 3`. -/
def sampledExcerpt (text : String) : String :=
  let third := text.data.length / 3
  pySlice text 4000 ++ "\n...(中略)...\n"
    ++ ⟨(text.data.drop third).take 4000⟩ ++ "\n...(中略)...\n"
    ++ ⟨text.data.drop (text.data.length - 4000)⟩

/-- Embedding of `compress_transcript(text, api_key)`.  The chat-completion
call is abstracted by the oracle `api`, applied to the sampled excerpt that
the real code embeds into its compression prompt: `api` returns `some c`
when the call succeeds with reply `c`, and `none` when it raises.  A text
within `MAX_TRANSCRIPT_CHARS` is returned unchanged; on API failure the
code falls back to `text[:MAX_TRANSCRIPT_CHARS]`; on success it returns
the reply verbatim. -/
def compress_transcript (text : String) (api : String → Option String) : String :=
  if pyLen text ≤ MAX_TRANSCRIPT_CHARS then
    text
  else
    match api (sampledExcerpt text) with
    | some compressed => compressed
    | none => pySlice text MAX_TRANSCRIPT_CHARS

/- ───────────────────────────────────────────
   split_audio (lines 88-118): chunk-count arithmetic
   ─────────────────────────────────────────── -/

/-- Chunk count computed by `split_audio`:
`num_chunks = int(duration / chunk_sec) + 1`.  Durations reported by
`ffprobe` are nonnegative, where Python's `int()` truncation agrees with
the floor. -/
def num_chunks (duration chunk_sec : ℚ) : Nat :=
  (⌊duration / chunk_sec⌋).toNat + 1

/-- Start offset (in seconds) of chunk `i`: `ffmpeg -ss str(i * chunk_sec)`. -/
def chunkStart (i : Nat) (chunk_sec : ℚ) : ℚ :=
  (i : ℚ) * chunk_sec

/-- End of the audio actually contained in chunk `i`: `ffmpeg` is invoked
with `-t chunk_sec`, so the chunk holds the audio of
`[chunkStart i, min (chunkStart i + chunk_sec) duration]`. -/
def chunkEnd (i : Nat) (chunk_sec duration : ℚ) : ℚ :=
  min (chunkStart i chunk_sec + chunk_sec) duration

/- ───────────────────────────────────────────
   transcribe_audio (lines 121-184)
   ─────────────────────────────────────────── -/

/-- Which audio file a single (non-chunked) transcription call is given:
the uploaded file itself or the `ffmpeg`-compressed copy. -/
inductive FileTag where
  | original
  | compressed
deriving DecidableEq

/-- Oracle environment for `transcribe_audio`: sizes reported by
`os.path.getsize`, the success of `compress_audio`, the chunk files
returned by `split_audio` (each paired with the outcome of its Whisper
call: `some text` on success, `none` when the call raises), and the
outcome of a whole-file Whisper call. -/
structure TranscribeEnv where
  origSize : Nat
  compressOk : Bool
  compSize : Nat
  chunks : List (Option String)
  whole : FileTag → Option String

/-- The 24 MiB Whisper upload limit: `max_size = 24 * 1024 * 1024`. -/
def max_size : Nat := 24 * 1024 * 1024

/-- Result of `transcribe_audio`, instrumented with which external steps
ran: whether `compress_audio` was invoked, whether `split_audio` was
invoked, and which file (if any) was sent in a single transcription
call. -/
structure TranscribeResult where
  compressed : Bool
  split : Bool
  directTarget : Option FileTag
  output : Option String

/-- The per-chunk transcription loop (lines 151-160): chunks are
transcribed in list order, collecting the fragments; an exception at any
chunk (a `none` outcome) propagates to the outer handler. -/
def collectTexts : List (Option String) → Option (List String)
  | [] => some []
  | none :: _ => none
  | some t :: rest => (collectTexts rest).map (t :: ·)

/-- The chunked-transcription path (lines 146-166): an empty chunk list
returns `None`; otherwise the loop's fragments are joined by
`" ".join(texts).strip()`, and a per-chunk exception yields `None`. -/
def chunkedOutput (chunks : List (Option String)) : Option String :=
  if chunks.isEmpty then none
  else (collectTexts chunks).map (fun texts => pyStrip (pyJoin " " texts))

/-- Embedding of `transcribe_audio(file_path, api_key)`.  A file over
`max_size` is first compressed (compression failure returns `None`); if
the compressed file is still over `max_size` it is split and transcribed
chunk by chunk; otherwise the working file is sent in one call. -/
def transcribe_audio (env : TranscribeEnv) : TranscribeResult :=
  if max_size < env.origSize then
    if env.compressOk then
      if max_size < env.compSize then
        ⟨true, true, none, chunkedOutput env.chunks⟩
      else
        ⟨true, false, some .compressed, env.whole .compressed⟩
    else
      ⟨true, false, none, none⟩
  else
    ⟨false, false, some .original, env.whole .original⟩

/- ───────────────────────────────────────────
   generate_report (lines 254-344)
   ─────────────────────────────────────────── -/

/-- The multi-file note (lines 272-275): emitted only when more than one
audio file is being merged. -/
def filesNote (file_labels : List String) : String :=
  if 1 < file_labels.length then
    "※ 本レポートは以下 " ++ toString file_labels.length
      ++ " 件の音声ファイルを統合した内容です：\n"
      ++ pyJoin "\n" (file_labels.map (fun l => "  - " ++ l))
  else ""

/-- The guard `if material_text and material_text.strip():` (line 263):
the material block is emitted only for a present, non-blank material
text. -/
def materialCond : Option String → Bool
  | none => false
  | some m => m ≠ "" && pyStrip m ≠ ""

/-- The supplementary-material block (lines 262-270): when emitted it
embeds `material_text[:MAX_MATERIAL_CHARS]`. -/
def safeMaterial (material_text : Option String) : String :=
  if materialCond material_text then
    "\n---\n【補足資料】\n" ++ pySlice (material_text.getD "") MAX_MATERIAL_CHARS
      ++ "\n---\n上記資料の数値・固有名詞・用語を積極的に活用してください。\n"
  else ""

/-- The fixed report-outline text of the prompt, between the transcript
and the meta-information file count (lines 283-305). -/
def reportOutline : String :=
  "\n\n# 📝 エグゼクティブサマリー\n（核心を捉えた2〜3段落。最重要な洞察・結論を含める）\n\n"
    ++ "# 🎯 キーポイント\n（5〜10個の具体的な重要ポイント。各ポイントは文脈を含める）\n\n"
    ++ "# 💡 主要な洞察と分析\n（3〜5個の深い洞察。なぜ重要か・どんな意味があるかを説明）\n\n"
    ++ "# ✅ アクションアイテム\n（実行可能な具体的タスクを優先度付きで列挙。誰が・何を・いつまでに）\n\n"
    ++ "# 🗣️ 重要な発言・引用\n（特に重要な発言を3〜5個抜粋。文脈と共に）\n\n"
    ++ "# 📊 トピック別詳細分析\n（主要トピックごとに詳しく分析。決定事項・懸念点など）\n\n"
    ++ "# 🔄 フォローアップ事項\n（今後の確認事項・未解決の問題・次のステップ）\n\n"
    ++ "# 📌 メタ情報\n- 音声ファイル数: "

/-- The prompt `generate_report` sends to the chat API (lines 277-310):
it embeds `safe_transcript = combined_transcript[:MAX_TRANSCRIPT_CHARS]`
and, inside `safeMaterial`, `material_text[:MAX_MATERIAL_CHARS]`. -/
def buildPrompt (combined_transcript : String) (file_labels : List String)
    (material_text : Option String) : String :=
  "以下の音声文字起こしから詳細な構造化レポートを作成してください。\n"
    ++ filesNote file_labels ++ "\n"
    ++ safeMaterial material_text
    ++ "\n【文字起こし】\n"
    ++ pySlice combined_transcript MAX_TRANSCRIPT_CHARS
    ++ reportOutline
    ++ toString file_labels.length ++ "件\n- 対象ファイル: "
    ++ pyJoin ", " file_labels
    ++ "\n- 補足資料: "
    ++ (if pyTruthy material_text then "あり（内容を反映済み）" else "なし")
    ++ "\n- 緊急度: [高/中/低]\n\n※文字起こしにない情報は「言及なし」と記載。"

/-- The retry guard of `generate_report`'s exception handler (line 325):
`"rate_limit_exceeded" in error_str or "too large" in error_str.lower()`.
Only the `"too large"` test lowercases the message first. -/
def retryCond (e : String) : Bool :=
  pyIn "rate_limit_exceeded" e || pyIn "too large" (pyLower e)

/-- Result of `generate_report`, instrumented with whether the fallback
retry ran and, when it did, the shortened transcript the retry embeds
(the code rebuilds the retry prompt as
`prompt.replace(safe_transcript, short_transcript)` with
`short_transcript = combined_transcript[:6000]`). -/
structure ReportOutcome where
  output : Option String
  retried : Bool
  retryTranscript : Option String
deriving DecidableEq

/-- Embedding of `generate_report`'s call/retry control flow
(lines 312-344).  `first` and `second` are the outcomes of the two
possible chat-completion calls: `.ok content` on success, `.error e`
when the call raises an exception whose `str` is `e`.  The first call is
always made (on `buildPrompt`); the second is made only when the first
raised and `retryCond` matches the message. -/
def generate_report (combined_transcript : String) (first second : Except String String) :
    ReportOutcome :=
  match first with
  | .ok content => ⟨some content, false, none⟩
  | .error e =>
      if retryCond e then
        match second with
        | .ok c2 => ⟨some c2, true, some (pySlice combined_transcript 6000)⟩
        | .error _ => ⟨none, true, some (pySlice combined_transcript 6000)⟩
      else
        ⟨none, false, none⟩

/- ───────────────────────────────────────────
   sort_key and the upload processing order (lines 650-654)
   ─────────────────────────────────────────── -/

/-- Python `s.zfill(width)` on an unsigned string: left-pad with zeros
to `width` characters (a longer string is returned unchanged).
`sort_key` only ever zfills a digits-only string, so the sign-handling
part of `zfill` never applies. -/
def pyZfill (s : String) (width : Nat) : String :=
  ⟨List.replicate (width - s.data.length) '0' ++ s.data⟩

/-- Accumulator-based scan implementing `re.findall(r"\d+", name)`:
maximal runs of digit characters, in order of occurrence.  `acc` holds
the (reversed) digits of the run currently being read. -/
def digitRunsAux : List Char → List Char → List (List Char)
  | [], acc => if acc.isEmpty then [] else [acc.reverse]
  | c :: rest, acc =>
      if c.isDigit then digitRunsAux rest (c :: acc)
      else if acc.isEmpty then digitRunsAux rest []
      else acc.reverse :: digitRunsAux rest []

/-- The maximal digit runs of a file name: `re.findall(r"\d+", f.name)`. -/
def digitRuns (name : String) : List (List Char) :=
  digitRunsAux name.data []

/-- Embedding of `sort_key(f)` (lines 650-652):
`"".join(nums).zfill(20) if nums else f.name`. -/
def sort_key (name : String) : String :=
  let nums := digitRuns name
  if nums ≠ [] then pyZfill ⟨nums.flatten⟩ 20 else name

/-- Lexicographic comparison of code-point sequences, as Python compares
strings. -/
def lexLE : List Char → List Char → Bool
  | [], _ => true
  | _ :: _, [] => false
  | a :: as, b :: bs =>
      if a.toNat < b.toNat then true
      else if b.toNat < a.toNat then false
      else lexLE as bs

/-- Embedding of `sorted(audio_files, key=sort_key)` (line 654), on file
names: Python's `sorted` and `List.mergeSort` are both stable sorts, so
they produce the same output for the same key comparison. -/
def sorted_audio (files : List String) : List String :=
  files.mergeSort (fun a b => lexLE (sort_key a).data (sort_key b).data)

/- ───────────────────────────────────────────
   summary_to_html (lines 425-582): data model
   ─────────────────────────────────────────── -/

/-- One entry of the `flow` array of the structured-summary JSON.  Every
field is optional: the renderer reads each with `.get(key, '')`. -/
structure FlowItem where
  time : Option String := none
  topic : Option String := none
  summary : Option String := none

/-- One entry of the `decisions` or `concerns` arrays. -/
structure CardItem where
  title : Option String := none
  detail : Option String := none

/-- One entry of the `actions` array. -/
structure ActionItem where
  priority : Option String := none
  who : Option String := none
  what : Option String := none
  when : Option String := none

/-- One entry of the `key_numbers` array. -/
structure KeyNumber where
  label : Option String := none
  value : Option String := none

/-- The structured-summary JSON object of the fixed schema prompted for
in `generate_summary_json`.  A `none` field models an absent key, so
`{}` is the empty dictionary; `summary_to_html` reads every field
through `.get` with a default. -/
structure SummaryData where
  title : Option String := none
  date : Option String := none
  type : Option String := none
  duration : Option String := none
  urgency : Option String := none
  one_line : Option String := none
  participants : Option (List String) := none
  flow : Option (List FlowItem) := none
  decisions : Option (List CardItem) := none
  actions : Option (List ActionItem) := none
  concerns : Option (List CardItem) := none
  next_topics : Option (List String) := none
  key_numbers : Option (List KeyNumber) := none
  keywords : Option (List String) := none

/-- The empty summary dictionary. -/
def emptySummary : SummaryData := {}

/- ───────────────────────────────────────────
   summary_to_html: per-section renderers
   ─────────────────────────────────────────── -/

/-- The color map `pc_map = {"高": ..., "中": ..., "低": ...}` read with
`.get(p, "#888")` (lines 426 and 449 use the same mapping). -/
def pcColor (p : String) : String :=
  if p = "高" then "#e53e5a"
  else if p = "中" then "#f5a623"
  else if p = "低" then "#22c38e"
  else "#888"

/-- `urgency_color` (line 426). -/
def urgencyColor (data : SummaryData) : String :=
  pcColor (data.urgency.getD "中")

/-- `urgency_bg` (line 427). -/
def urgencyBg (data : SummaryData) : String :=
  let u := data.urgency.getD "中"
  if u = "高" then "#fff0f2"
  else if u = "中" then "#fff8ee"
  else if u = "低" then "#f0fff8"
  else "#f5f5f5"

/-- The urgency emoji of the badge (line 552):
`'🔴' if data.get('urgency')=='高' else '🟡' if data.get('urgency')=='中'
else '🟢'` (note: no default, so a missing key compares unequal). -/
def urgencyEmoji (data : SummaryData) : String :=
  match data.urgency with
  | some u => if u = "高" then "🔴" else if u = "中" then "🟡" else "🟢"
  | none => "🟢"

/-- The loop body of `flow_html` (lines 431-440), with the connector
arrow appended after the item. -/
def flowItemHtml (connector : String) (f : FlowItem) : String :=
  "\n        <div class=\"flow-item\">\n          <div class=\"flow-time\">"
    ++ (f.time.getD "")
    ++ "</div>\n          <div class=\"flow-content\">\n            <div class=\"flow-topic\">"
    ++ (f.topic.getD "")
    ++ "</div>\n            <div class=\"flow-summary\">"
    ++ (f.summary.getD "")
    ++ "</div>\n          </div>\n        </div>"
    ++ connector

/-- `flow_html`: every item but the last is followed by the arrow
connector (`i < len(flow_items) - 1`). -/
def flowHtml : List FlowItem → String
  | [] => ""
  | [f] => flowItemHtml "" f
  | f :: rest => flowItemHtml "<div class=\"flow-arrow\">↓</div>" f ++ flowHtml rest

/-- The `'<div class="empty-note">言及なし</div>'` placeholder used by the
decisions, actions and concerns sections. -/
def emptyNote : String := "<div class=\"empty-note\">言及なし</div>"

/-- The `'<li class="empty-note">言及なし</li>'` placeholder of the
next-topics list. -/
def emptyNoteLi : String := "<li class=\"empty-note\">言及なし</li>"

/-- One decision card (lines 443-445). -/
def decItemHtml (d : CardItem) : String :=
  "<div class=\"card-item card-decision\"><div class=\"card-item-title\">✅ "
    ++ (d.title.getD "")
    ++ "</div><div class=\"card-item-detail\">"
    ++ (d.detail.getD "")
    ++ "</div></div>"

/-- `dec_html` (lines 442-446): the joined cards, or the placeholder when
the `decisions` key is missing or its list empty. -/
def decHtml (data : SummaryData) : String :=
  let decisions := data.decisions.getD []
  if decisions.isEmpty then emptyNote
  else String.join (decisions.map decItemHtml)

/-- Sort rank of a priority string:
`{"高":0,"中":1,"低":2}.get(x.get("priority","中"),1)` (line 458). -/
def priorityRank (p : String) : Nat :=
  if p = "高" then 0 else if p = "中" then 1 else if p = "低" then 2 else 1

/-- Rank of one action: a missing `priority` defaults to `"中"`. -/
def actionRank (a : ActionItem) : Nat :=
  priorityRank (a.priority.getD "中")

/-- The sorted action list of line 458,
`sorted(actions, key=lambda x: ...)`: Python's `sorted` and
`List.mergeSort` are both stable, so they agree. -/
def actionsSorted (data : SummaryData) : List ActionItem :=
  (data.actions.getD []).mergeSort (fun a b => decide (actionRank a ≤ actionRank b))

/-- One action row (lines 451-457). -/
def actionRowHtml (a : ActionItem) : String :=
  "<div class=\"action-row\">\n          <span class=\"action-priority\" style=\"background:"
    ++ (pcColor (a.priority.getD "中"))
    ++ "20;color:"
    ++ (pcColor (a.priority.getD "中"))
    ++ ";border:1px solid "
    ++ (pcColor (a.priority.getD "中"))
    ++ "40\">"
    ++ (a.priority.getD "")
    ++ "</span>\n          <div class=\"action-body\">\n            <div class=\"action-what\">"
    ++ (a.what.getD "")
    ++ "</div>\n            <div class=\"action-meta\">👤 "
    ++ (a.who.getD "未定")
    ++ " &nbsp;｜&nbsp; 📅 "
    ++ (a.when.getD "期限未定")
    ++ "</div>\n          </div>\n        </div>"

/-- `act_html` (lines 448-459): the sorted, joined action rows, or the
placeholder when the `actions` key is missing or its list empty. -/
def actHtml (data : SummaryData) : String :=
  let actions := data.actions.getD []
  if actions.isEmpty then emptyNote
  else String.join ((actionsSorted data).map actionRowHtml)

/-- One concern card (lines 462-464). -/
def conItemHtml (c : CardItem) : String :=
  "<div class=\"card-item card-concern\"><div class=\"card-item-title\">⚠️ "
    ++ (c.title.getD "")
    ++ "</div><div class=\"card-item-detail\">"
    ++ (c.detail.getD "")
    ++ "</div></div>"

/-- `con_html` (lines 461-465). -/
def conHtml (data : SummaryData) : String :=
  let concerns := data.concerns.getD []
  if concerns.isEmpty then emptyNote
  else String.join (concerns.map conItemHtml)

/-- `next_html` (lines 467-468). -/
def nextHtml (data : SummaryData) : String :=
  let nexts := data.next_topics.getD []
  if nexts.isEmpty then emptyNoteLi
  else String.join (nexts.map (fun n => "<li>" ++ n ++ "</li>"))

/-- One KPI card (lines 471-473). -/
def kpiCardHtml (n : KeyNumber) : String :=
  "<div class=\"kpi-card\"><div class=\"kpi-value\">"
    ++ (n.value.getD "")
    ++ "</div><div class=\"kpi-label\">"
    ++ (n.label.getD "")
    ++ "</div></div>"

/-- `num_html` (lines 470-474): no placeholder here — the whole KPI row
is omitted instead (line 555). -/
def numHtml (data : SummaryData) : String :=
  String.join ((data.key_numbers.getD []).map kpiCardHtml)

/-- `kw_html` (lines 476-477). -/
def kwHtml (data : SummaryData) : String :=
  String.join ((data.keywords.getD []).map
    (fun k => "<span class=\"keyword\">" ++ k ++ "</span>"))

/-- `par_html` (lines 478-479). -/
def parHtml (data : SummaryData) : String :=
  let participants := data.participants.getD []
  if participants.isEmpty then "不明" else pyJoin "・" participants

/-- `files_html` (line 480). -/
def filesHtml (file_labels : List String) : String :=
  pyJoin "・" file_labels

/-- The conditional KPI row of line 555. -/
def kpiRow (data : SummaryData) : String :=
  if (data.key_numbers.getD []).isEmpty then ""
  else "<div class=\x27kpi-row\x27>" ++ numHtml data ++ "</div>"

/-- The conditional keyword section of line 575. -/
def kwSection (data : SummaryData) : String :=
  if (data.keywords.getD []).isEmpty then ""
  else "<div class=\x27section\x27><div class=\x27section-title\x27>🏷 キーワード</div><div class=\x27keyword-wrap\x27>"
    ++ kwHtml data ++ "</div></div>"

/-- The document template of `summary_to_html` up to and including the
decisions section title (lines 482-562). -/
def htmlPrefix (data : SummaryData) (file_labels : List String) : String :=
  "<!DOCTYPE html>\n<html lang=\"ja\">\n<head>\n<meta charset=\"UTF-8\">\n<meta name=\"viewport\" content=\"width=device-width,initial-scale=1\">\n<title>"
    ++ (data.title.getD "構造化サマリー")
    ++ "</title>\n<style>\n@import url(\x27https://fonts.googleapis.com/css2?family=Noto+Sans+JP:wght@300;400;500;700;900&display=swap\x27);\n:root \x7b\n  --ink:#1a2140;--ink2:#4a567a;--ink3:#8892b0;\n  --line:#e2e8f0;--bg:#f8faff;--card:#ffffff;\n  --blue:#3b6ef0;--blue-lt:#eef2ff;\n  --green:#22c38e;--red:#e53e5a;--amber:#f5a623;\n  --radius:10px;--shadow:0 2px 12px rgba(26,33,64,.08);\n\x7d\n*\x7bbox-sizing:border-box;margin:0;padding:0;\x7d\nbody\x7bfont-family:\x27Noto Sans JP\x27,sans-serif;background:var(--bg);color:var(--ink);font-size:14px;line-height:1.7;\x7d\n.page\x7bmax-width:860px;margin:0 auto;padding:40px 32px 80px;\x7d\n.doc-header\x7bborder-bottom:3px solid var(--blue);padding-bottom:24px;margin-bottom:32px;\x7d\n.doc-meta\x7bdisplay:flex;gap:10px;flex-wrap:wrap;margin-bottom:12px;\x7d\n.meta-chip\x7bdisplay:inline-flex;align-items:center;gap:5px;font-size:11px;font-weight:600;letter-spacing:.06em;color:var(--ink3);background:white;border:1px solid var(--line);border-radius:99px;padding:3px 11px;\x7d\n.doc-title\x7bfont-size:clamp(20px,3vw,28px);font-weight:900;color:var(--ink);line-height:1.3;margin-bottom:12px;\x7d\n.one-line\x7bfont-size:14px;color:var(--ink2);background:var(--blue-lt);border-left:4px solid var(--blue);padding:10px 16px;border-radius:0 8px 8px 0;font-weight:500;\x7d\n.urgency-badge\x7bdisplay:inline-flex;align-items:center;gap:5px;font-size:12px;font-weight:700;padding:4px 14px;border-radius:99px;background:"
    ++ (urgencyBg data)
    ++ ";color:"
    ++ (urgencyColor data)
    ++ ";border:1.5px solid "
    ++ (urgencyColor data)
    ++ "40;margin-top:12px;\x7d\n.kpi-row\x7bdisplay:flex;gap:12px;flex-wrap:wrap;margin-bottom:32px;\x7d\n.kpi-card\x7bbackground:var(--card);border:1px solid var(--line);border-radius:var(--radius);padding:16px 20px;min-width:120px;text-align:center;box-shadow:var(--shadow);flex:1;\x7d\n.kpi-value\x7bfont-size:22px;font-weight:900;color:var(--blue);line-height:1.2;\x7d\n.kpi-label\x7bfont-size:11px;color:var(--ink3);margin-top:4px;\x7d\n.section\x7bmargin-bottom:32px;\x7d\n.section-title\x7bfont-size:11px;font-weight:800;letter-spacing:.14em;text-transform:uppercase;color:var(--blue);margin-bottom:12px;display:flex;align-items:center;gap:8px;\x7d\n.section-title::after\x7bcontent:\x27\x27;flex:1;height:1px;background:var(--line);\x7d\n.flow-wrap\x7bdisplay:flex;flex-direction:column;\x7d\n.flow-item\x7bdisplay:flex;gap:16px;align-items:flex-start;background:var(--card);border:1px solid var(--line);border-radius:var(--radius);padding:14px 18px;width:100%;box-shadow:var(--shadow);\x7d\n.flow-arrow\x7btext-align:center;color:var(--ink3);font-size:18px;padding:4px 0;\x7d\n.flow-time\x7bfont-size:11px;font-weight:700;color:var(--blue);background:var(--blue-lt);padding:3px 10px;border-radius:99px;white-space:nowrap;flex-shrink:0;align-self:flex-start;margin-top:2px;\x7d\n.flow-topic\x7bfont-size:14px;font-weight:700;color:var(--ink);margin-bottom:4px;\x7d\n.flow-summary\x7bfont-size:13px;color:var(--ink2);\x7d\n.card-item\x7bbackground:var(--card);border-radius:var(--radius);padding:14px 18px;margin-bottom:10px;border:1px solid var(--line);box-shadow:var(--shadow);\x7d\n.card-decision\x7bborder-left:4px solid var(--green);\x7d\n.card-concern\x7bborder-left:4px solid var(--amber);\x7d\n.card-item-title\x7bfont-size:14px;font-weight:700;color:var(--ink);margin-bottom:4px;\x7d\n.card-item-detail\x7bfont-size:13px;color:var(--ink2);\x7d\n.action-row\x7bdisplay:flex;gap:14px;align-items:flex-start;background:var(--card);border:1px solid var(--line);border-radius:var(--radius);padding:12px 16px;margin-bottom:8px;box-shadow:var(--shadow);\x7d\n.action-priority\x7bfont-size:11px;font-weight:700;padding:3px 10px;border-radius:99px;white-space:nowrap;flex-shrink:0;\x7d\n.action-what\x7bfont-size:14px;font-weight:600;color:var(--ink);margin-bottom:4px;\x7d\n.action-meta\x7bfont-size:12px;color:var(--ink3);\x7d\n.next-list\x7blist-style:none;display:flex;flex-direction:column;gap:8px;\x7d\n.next-list li\x7bbackground:var(--card);border:1px solid var(--line);border-radius:var(--radius);padding:10px 16px;font-size:13px;color:var(--ink2);box-shadow:var(--shadow);\x7d\n.next-list li::before\x7bcontent:\"→ \";color:var(--blue);font-weight:700;\x7d\n.keyword-wrap\x7bdisplay:flex;flex-wrap:wrap;gap:8px;\x7d\n.keyword\x7bbackground:var(--blue-lt);color:var(--blue);border:1px solid #c0cef8;border-radius:99px;padding:4px 14px;font-size:12px;font-weight:600;\x7d\n.two-col\x7bdisplay:grid;grid-template-columns:1fr 1fr;gap:24px;\x7d\n.empty-note\x7bfont-size:13px;color:var(--ink3);font-style:italic;padding:8px 4px;\x7d\n.doc-footer\x7bmargin-top:48px;padding-top:16px;border-top:1px solid var(--line);font-size:11px;color:var(--ink3);\x7d\n.files-note\x7bfont-size:12px;color:var(--ink3);margin-top:4px;\x7d\n@media(max-width:600px)\x7b.page\x7bpadding:24px 16px 60px;\x7d.two-col\x7bgrid-template-columns:1fr;\x7d\x7d\n@media print\x7bbody\x7bbackground:white;\x7d.page\x7bpadding:20px;max-width:100%;\x7d.card-item,.action-row,.flow-item,.next-list li\x7b-webkit-print-color-adjust:exact;print-color-adjust:exact;break-inside:avoid;\x7d.section\x7bbreak-inside:avoid;\x7d\x7d\n</style>\n</head>\n<body>\n<div class=\"page\">\n  <div class=\"doc-header\">\n    <div class=\"doc-meta\">\n      <span class=\"meta-chip\">📅 "
    ++ (data.date.getD "不明")
    ++ "</span>\n      <span class=\"meta-chip\">🎙️ "
    ++ (data.type.getD "会議")
    ++ "</span>\n      <span class=\"meta-chip\">⏱ "
    ++ (data.duration.getD "不明")
    ++ "</span>\n      <span class=\"meta-chip\">👥 "
    ++ (parHtml data)
    ++ "</span>\n    </div>\n    <div class=\"doc-title\">"
    ++ (data.title.getD "構造化サマリー")
    ++ "</div>\n    <div class=\"one-line\">"
    ++ (data.one_line.getD "")
    ++ "</div>\n    <div class=\"urgency-badge\">"
    ++ (urgencyEmoji data)
    ++ " 緊急度："
    ++ (data.urgency.getD "中")
    ++ "</div>\n    <div class=\"files-note\">📁 対象ファイル："
    ++ (filesHtml file_labels)
    ++ "</div>\n  </div>\n  "
    ++ (kpiRow data)
    ++ "\n  <div class=\"section\">\n    <div class=\"section-title\">📋 話の流れ・構成</div>\n    <div class=\"flow-wrap\">"
    ++ (flowHtml (data.flow.getD []))
    ++ "</div>\n  </div>\n  <div class=\"two-col\">\n    <div class=\"section\">\n      <div class=\"section-title\">✅ 決定事項</div>"

/-- The template between `dec_html` and `con_html` (lines 562-565). -/
def htmlDecCon : String :=
  "\n    </div>\n    <div class=\"section\">\n      <div class=\"section-title\">⚠️ 懸念・リスク</div>"

/-- The template between `con_html` and `act_html` (lines 565-569). -/
def htmlConAct : String :=
  "\n    </div>\n  </div>\n  <div class=\"section\">\n    <div class=\"section-title\">🎯 アクションアイテム</div>"

/-- The template between `act_html` and `next_html` (lines 569-573). -/
def htmlActNext : String :=
  "\n  </div>\n  <div class=\"section\">\n    <div class=\"section-title\">🔄 次回以降の検討事項</div>\n    <ul class=\"next-list\">"

/-- The document template after `next_html` (lines 573-582). -/
def htmlSuffix (data : SummaryData) (file_labels : List String)
    (generated_at : String) : String :=
  "</ul>\n  </div>\n  "
    ++ (kwSection data)
    ++ "\n  <div class=\"doc-footer\">\n    <div>📁 "
    ++ (filesHtml file_labels)
    ++ "</div>\n    <div>🕐 生成日時："
    ++ (generated_at)
    ++ "</div>\n  </div>\n</div>\n</body>\n</html>"

/-- Embedding of `summary_to_html(data, file_labels, generated_at)`
(lines 425-582): the full HTML document, with the four per-section
renderers spliced between the template pieces. -/
def summary_to_html (data : SummaryData) (file_labels : List String)
    (generated_at : String) : String :=
  htmlPrefix data file_labels
    ++ decHtml data
    ++ htmlDecCon
    ++ conHtml data
    ++ htmlConAct
    ++ actHtml data
    ++ htmlActNext
    ++ nextHtml data
    ++ htmlSuffix data file_labels generated_at

/- ───────────────────────────────────────────
   Concrete inputs used by counterexamples and witnesses
   ─────────────────────────────────────────── -/

/-- A 12001-character string, one character over the transcript budget. -/
def overLongText : String := ⟨List.replicate 12001 'a'⟩

/-- An API oracle whose summarization reply is itself 12001 characters
long (the code never re-truncates the reply). -/
def overflowingApi : String → Option String := fun _ => some overLongText

/-- A small (100-byte) upload whose direct transcription succeeds. -/
def envSmall : TranscribeEnv :=
  ⟨100, false, 0, [], fun _ => some "hi"⟩

/-- A 26 MiB upload that compresses to 25 MiB and is then split into two
chunks, both of which transcribe successfully. -/
def envChunked : TranscribeEnv :=
  ⟨26 * 1024 * 1024, true, 25 * 1024 * 1024, [some "hello", some "world"], fun _ => none⟩

/- ───────────────────────────────────────────
   Helper lemmas on the chunk loop
   ─────────────────────────────────────────── -/

theorem collectTexts_map_some (l : List String) : collectTexts (l.map some) = some l := by
  induction l with
  | nil => rfl
  | cons a t ih => simp [collectTexts, ih]

theorem collectTexts_ne_none (l : List (Option String)) :
    collectTexts l ≠ none ↔ ∀ c ∈ l, c ≠ none := by
  induction l with
  | nil => simp [collectTexts]
  | cons a t ih =>
      cases a with
      | none => simp [collectTexts]
      | some v => simp [collectTexts, Option.map_eq_none, ih]

end VoiceMemo

namespace VoiceMemo

/-- C1 counterexample: `compress_transcript` does NOT always return at
most `MAX_TRANSCRIPT_CHARS` characters.  On the summarization success
path the reply of the chat call is returned verbatim, so when the model
replies with 12001 characters the result has 12001 > 12000 characters. -/
theorem compress_transcript_not_bounded :
    ¬ pyLen (compress_transcript overLongText overflowingApi) ≤ MAX_TRANSCRIPT_CHARS := by
  have hlen : pyLen overLongText = 12001 := by
    show (List.replicate 12001 'a').length = 12001
    rw [List.length_replicate]
  have hcond : ¬ pyLen overLongText ≤ MAX_TRANSCRIPT_CHARS := by
    rw [hlen]; decide
  rw [compress_transcript, if_neg hcond]
  simp [overflowingApi, hlen, MAX_TRANSCRIPT_CHARS]

/-- C1 (amended): a text within `MAX_TRANSCRIPT_CHARS` is returned
unchanged, and whenever the summarization oracle's replies are themselves
within the budget (in particular whenever the call fails and the code
truncates to `text[:MAX_TRANSCRIPT_CHARS]`), the result of
`compress_transcript` fits the budget. -/
theorem compress_transcript_budget (text : String) (api : String → Option String)
    (hapi : ∀ s c, api s = some c → pyLen c ≤ MAX_TRANSCRIPT_CHARS) :
    pyLen (compress_transcript text api) ≤ MAX_TRANSCRIPT_CHARS ∧
    (pyLen text ≤ MAX_TRANSCRIPT_CHARS → compress_transcript text api = text) := by
  unfold compress_transcript
  by_cases h : pyLen text ≤ MAX_TRANSCRIPT_CHARS
  · simp [h]
  · refine ⟨?_, fun hc => absurd hc h⟩
    rw [if_neg h]
    cases hcall : api (sampledExcerpt text) with
    | some c => exact hapi _ _ hcall
    | none =>
        simp only [pySlice, pyLen, List.length_take]
        exact le_trans (min_le_left _ _) (le_refl _)

/-- C1 witness: concrete application of `compress_transcript_budget` to
the over-long text with an always-failing API oracle. -/
theorem compress_transcript_budget_witness :
    pyLen (compress_transcript overLongText (fun _ => none)) ≤ MAX_TRANSCRIPT_CHARS :=
  (compress_transcript_budget overLongText (fun _ => none)
    (fun _ c h => Option.noConfusion h)).1

/-- C2: for a nonnegative duration `d`, `split_audio` computes the chunk
count as `floor(d / 600) + 1`; each chunk holds at most 600 seconds of
audio; and every instant of `[0, d]` lies inside some chunk's
time window `[i*600, i*600 + 600)`, so the segments cover the whole
duration. -/
theorem split_audio_coverage (d : ℚ) (hd : 0 ≤ d) :
    num_chunks d 600 = (⌊d / 600⌋).toNat + 1 ∧
    (∀ i : Nat, chunkEnd i 600 d - chunkStart i 600 ≤ 600) ∧
    (∀ t : ℚ, 0 ≤ t → t ≤ d →
      ∃ i, i < num_chunks d 600 ∧ chunkStart i 600 ≤ t ∧ t < chunkStart i 600 + 600) := by
  have h600 : (0 : ℚ) < 600 := by norm_num
  refine ⟨rfl, ?_, ?_⟩
  · intro i
    have := min_le_left (chunkStart i 600 + 600) d
    simp only [chunkEnd]
    linarith
  · intro t ht htd
    have hfl : 0 ≤ ⌊t / 600⌋ := Int.floor_nonneg.mpr (div_nonneg ht h600.le)
    have hcast : (((⌊t / 600⌋).toNat : ℤ) : ℚ) = ((⌊t / 600⌋ : ℤ) : ℚ) := by
      rw [Int.toNat_of_nonneg hfl]
    refine ⟨(⌊t / 600⌋).toNat, ?_, ?_, ?_⟩
    · have hmono : ⌊t / 600⌋ ≤ ⌊d / 600⌋ := by
        apply Int.floor_le_floor
        gcongr
      have : (⌊t / 600⌋).toNat ≤ (⌊d / 600⌋).toNat := Int.toNat_le_toNat hmono
      unfold num_chunks
      omega
    · have hle : ((⌊t / 600⌋ : ℤ) : ℚ) ≤ t / 600 := Int.floor_le _
      unfold chunkStart
      rw [show (((⌊t / 600⌋).toNat : Nat) : ℚ) = ((⌊t / 600⌋ : ℤ) : ℚ) by exact_mod_cast hcast]
      linarith
    · have hlt : t / 600 < ((⌊t / 600⌋ : ℤ) : ℚ) + 1 := Int.lt_floor_add_one _
      unfold chunkStart
      rw [show (((⌊t / 600⌋).toNat : Nat) : ℚ) = ((⌊t / 600⌋ : ℤ) : ℚ) by exact_mod_cast hcast]
      linarith

/-- C2 witness: a 1500-second recording; the instant t = 700 s is covered
by one of the chunks. -/
theorem split_audio_coverage_witness :
    (0 : ℚ) ≤ 1500 ∧
    (∃ i, i < num_chunks 1500 600 ∧ chunkStart i 600 ≤ 700 ∧ (700 : ℚ) < chunkStart i 600 + 600) :=
  ⟨by norm_num, (split_audio_coverage 1500 (by norm_num)).2.2 700 (by norm_num) (by norm_num)⟩

/-- C3: on the chunked path (original and compressed sizes both over the
limit) with a nonempty chunk list whose per-chunk transcriptions all
succeed, the transcript returned by `transcribe_audio` is the fragments
joined in chunk order by a single space and then stripped:
`" ".join(texts).strip()`. -/
theorem transcribe_audio_chunk_concat (env : TranscribeEnv) (texts : List String)
    (h1 : max_size < env.origSize) (h2 : env.compressOk = true)
    (h3 : max_size < env.compSize) (hchunks : env.chunks = texts.map some)
    (hne : texts ≠ []) :
    (transcribe_audio env).output = some (pyStrip (pyJoin " " texts)) := by
  have hempty : (texts.map some).isEmpty = false := by
    cases texts with
    | nil => exact absurd rfl hne
    | cons a t => rfl
  unfold transcribe_audio
  rw [if_pos h1, if_pos h2, if_pos h3]
  show chunkedOutput env.chunks = _
  rw [hchunks, chunkedOutput, hempty]
  simp [collectTexts_map_some]

/-- C3 witness: a two-chunk transcription whose fragments "hello" and
"world" are joined with a single space. -/
theorem transcribe_audio_chunk_concat_witness :
    (transcribe_audio envChunked).output = some "hello world" := by
  have h := transcribe_audio_chunk_concat envChunked ["hello", "world"]
    (by decide) rfl (by decide) rfl (by decide)
  rw [h]
  rfl

/-- C4: `transcribe_audio` sends the uploaded file directly to the
transcription API iff its size is at most 24 MiB; compression runs iff
the file is larger; and the file is split into chunks iff,
additionally, compression succeeded and the compressed copy is still
over the same threshold. -/
theorem transcribe_audio_size_threshold (env : TranscribeEnv) :
    ((transcribe_audio env).directTarget = some FileTag.original ↔
      env.origSize ≤ max_size) ∧
    ((transcribe_audio env).compressed = true ↔ max_size < env.origSize) ∧
    ((transcribe_audio env).split = true ↔
      (max_size < env.origSize ∧ env.compressOk = true ∧ max_size < env.compSize)) := by
  unfold transcribe_audio
  by_cases h1 : max_size < env.origSize <;>
    by_cases h2 : env.compressOk <;>
      by_cases h3 : max_size < env.compSize <;>
        simp [h1, h2, h3] <;> omega

/-- C4 witness: a 100-byte file is sent directly. -/
theorem transcribe_audio_size_threshold_witness :
    (transcribe_audio envSmall).directTarget = some FileTag.original :=
  (transcribe_audio_size_threshold envSmall).1.mpr (by decide)

/-- C8: the embedded `transcribe_audio` is a total function into
`Option String` (every failure — compression failure, empty chunk list,
or an API exception, modelled as a `none` oracle outcome — is caught and
surfaces as `None`), and it returns a string exactly when the size
dispatch reaches a transcription call that succeeds: either a direct
call, a call on the compressed copy, or a nonempty chunked run all of
whose per-chunk calls succeed. -/
theorem transcribe_audio_total (env : TranscribeEnv) :
    (transcribe_audio env).output ≠ none ↔
      ((env.origSize ≤ max_size ∧ env.whole FileTag.original ≠ none) ∨
       (max_size < env.origSize ∧ env.compressOk = true ∧ env.compSize ≤ max_size ∧
         env.whole FileTag.compressed ≠ none) ∨
       (max_size < env.origSize ∧ env.compressOk = true ∧ max_size < env.compSize ∧
         env.chunks ≠ [] ∧ ∀ c ∈ env.chunks, c ≠ none)) := by
  have hchunk : chunkedOutput env.chunks ≠ none ↔
      (env.chunks ≠ [] ∧ ∀ c ∈ env.chunks, c ≠ none) := by
    unfold chunkedOutput
    by_cases he : env.chunks.isEmpty
    · simp [he, List.isEmpty_iff.mp he]
    · have hne : env.chunks ≠ [] := by
        intro h
        exact he (by simp [h])
      simp [he, hne, Option.map_eq_none, collectTexts_ne_none]
  unfold transcribe_audio
  by_cases h1 : max_size < env.origSize
  · by_cases h2 : env.compressOk
    · by_cases h3 : max_size < env.compSize
      · rw [if_pos h1, if_pos h2, if_pos h3]
        simp [h1, h2, h3, hchunk, not_le.mpr h1, not_le.mpr h3]
      · rw [if_pos h1, if_pos h2, if_neg h3]
        simp [h1, h2, h3, not_le.mpr h1, not_lt.mp h3]
    · rw [if_pos h1, if_neg h2]
      simp [h1, h2, not_le.mpr h1]
  · rw [if_neg h1]
    simp [h1, not_lt.mp h1]

/-- C8 witness: the small upload's direct transcription succeeds, so the
result is a string (not `None`). -/
theorem transcribe_audio_total_witness :
    (transcribe_audio envSmall).output ≠ none :=
  (transcribe_audio_total envSmall).mpr (Or.inl ⟨by decide, by decide⟩)

/-- C5 counterexample: the retry guard is NOT case-insensitive for
`rate_limit_exceeded`.  The message `"RATE_LIMIT_EXCEEDED"` contains
`"rate_limit_exceeded"` case-insensitively, yet `generate_report` does
not retry on it and returns `None`. -/
theorem generate_report_not_case_insensitive :
    pyIn "rate_limit_exceeded" (pyLower "RATE_LIMIT_EXCEEDED") = true ∧
    (generate_report "t" (.error "RATE_LIMIT_EXCEEDED") (.ok "recovered")).retried = false ∧
    (generate_report "t" (.error "RATE_LIMIT_EXCEEDED") (.ok "recovered")).output = none := by
  refine ⟨by decide, rfl, rfl⟩

/-- C5 (amended): when the first chat-completion call raises an error
whose message contains `rate_limit_exceeded` (exact case) or
`too large` (case-insensitive), `generate_report` retries exactly once
with the transcript shortened to its first 6000 characters; on any
other error, or when the retry also fails, it returns `None` instead of
raising. -/
theorem generate_report_retry (t : String) (first second : Except String String) :
    (∀ c, first = .ok c →
      generate_report t first second = ⟨some c, false, none⟩) ∧
    (∀ e, first = .error e → retryCond e = false →
      generate_report t first second = ⟨none, false, none⟩) ∧
    (∀ e, first = .error e → retryCond e = true →
      (generate_report t first second).retried = true ∧
      (generate_report t first second).retryTranscript = some (pySlice t 6000) ∧
      ((∃ c2, second = .ok c2 ∧ (generate_report t first second).output = some c2) ∨
       ((∃ e2, second = .error e2) ∧ (generate_report t first second).output = none))) := by
  refine ⟨?_, ?_, ?_⟩
  · intro c h
    subst h
    rfl
  · intro e h hr
    subst h
    simp [generate_report, hr]
  · intro e h hr
    subst h
    cases second with
    | ok c2 => simp [generate_report, hr]
    | error e2 => simp [generate_report, hr]

/-- C5 witness: an oversized-request error message triggers the single
retry, which carries the first 6000 characters of the transcript and
succeeds. -/
theorem generate_report_retry_witness :
    (generate_report "transcript" (.error "Request too large") (.ok "ok")).retried = true ∧
    (generate_report "transcript" (.error "Request too large") (.ok "ok")).retryTranscript =
      some (pySlice "transcript" 6000) := by
  have h := (generate_report_retry "transcript" (.error "Request too large") (.ok "ok")).2.2
    "Request too large" rfl (by decide)
  exact ⟨h.1, h.2.1⟩

/-- C6: the prompt `generate_report` sends is determined by the first
`MAX_TRANSCRIPT_CHARS` (12000) characters of the transcript together
with the first `MAX_MATERIAL_CHARS` (3000) characters of the material
text and the material's presence/non-blank flags — content beyond those
budgets never reaches the prompt — and the embedded excerpts are of at
most 12000 resp. 3000 characters. -/
theorem generate_report_prompt_budget (t t' : String) (l : List String)
    (m m' : Option String)
    (ht : pySlice t MAX_TRANSCRIPT_CHARS = pySlice t' MAX_TRANSCRIPT_CHARS)
    (htr : pyTruthy m = pyTruthy m')
    (hcond : materialCond m = materialCond m')
    (hslice : ∀ s s', m = some s → m' = some s' →
      pySlice s MAX_MATERIAL_CHARS = pySlice s' MAX_MATERIAL_CHARS) :
    buildPrompt t l m = buildPrompt t' l m' ∧
    pyLen (pySlice t MAX_TRANSCRIPT_CHARS) ≤ MAX_TRANSCRIPT_CHARS ∧
    (∀ s, m = some s → pyLen (pySlice s MAX_MATERIAL_CHARS) ≤ MAX_MATERIAL_CHARS) := by
  have hsm : safeMaterial m = safeMaterial m' := by
    unfold safeMaterial
    rw [hcond]
    by_cases hc : materialCond m' = true
    · rw [if_pos hc, if_pos hc]
      cases m with
      | none => rw [← hcond] at hc; exact absurd hc (by simp [materialCond])
      | some s =>
          cases m' with
          | none => exact absurd hc (by simp [materialCond])
          | some s' => rw [Option.getD_some, Option.getD_some, hslice s s' rfl rfl]
    · rw [if_neg hc, if_neg hc]
  refine ⟨?_, ?_, ?_⟩
  · unfold buildPrompt
    rw [ht, hsm, htr]
  · simp only [pyLen, pySlice, List.length_take]
    exact min_le_left _ _
  · intro s _
    simp only [pyLen, pySlice, List.length_take]
    exact min_le_left _ _

/- Helper lemmas for the ordering claims. -/

theorem lexLE_cons (x y : Char) (xs ys : List Char) :
    lexLE (x :: xs) (y :: ys) = true ↔
      (x.toNat < y.toNat ∨ (x.toNat = y.toNat ∧ lexLE xs ys = true)) := by
  by_cases h1 : x.toNat < y.toNat
  · simp [lexLE, h1]
  · by_cases h2 : y.toNat < x.toNat
    · simp only [lexLE]
      rw [if_neg h1, if_pos h2]
      constructor
      · intro h
        exact absurd h (by simp)
      · intro h
        rcases h with h | ⟨h, _⟩
        · omega
        · omega
    · have heq : x.toNat = y.toNat := by omega
      simp [lexLE, h1, h2, heq]

theorem lexLE_total (a b : List Char) : lexLE a b = true ∨ lexLE b a = true := by
  induction a generalizing b with
  | nil => exact Or.inl rfl
  | cons x xs ih =>
      cases b with
      | nil => exact Or.inr rfl
      | cons y ys =>
          rcases Nat.lt_trichotomy x.toNat y.toNat with h | h | h
          · exact Or.inl ((lexLE_cons _ _ _ _).mpr (Or.inl h))
          · rcases ih ys with h' | h'
            · exact Or.inl ((lexLE_cons _ _ _ _).mpr (Or.inr ⟨h, h'⟩))
            · exact Or.inr ((lexLE_cons _ _ _ _).mpr (Or.inr ⟨h.symm, h'⟩))
          · exact Or.inr ((lexLE_cons _ _ _ _).mpr (Or.inl h))

theorem lexLE_trans (a b c : List Char) (hab : lexLE a b = true)
    (hbc : lexLE b c = true) : lexLE a c = true := by
  induction a generalizing b c with
  | nil => rfl
  | cons x xs ih =>
      cases b with
      | nil => exact absurd hab (by simp [lexLE])
      | cons y ys =>
          cases c with
          | nil => exact absurd hbc (by simp [lexLE])
          | cons z zs =>
              rcases (lexLE_cons _ _ _ _).mp hab with h1 | ⟨h1, h1'⟩ <;>
                rcases (lexLE_cons _ _ _ _).mp hbc with h2 | ⟨h2, h2'⟩
              · exact (lexLE_cons _ _ _ _).mpr (Or.inl (by omega))
              · exact (lexLE_cons _ _ _ _).mpr (Or.inl (by omega))
              · exact (lexLE_cons _ _ _ _).mpr (Or.inl (by omega))
              · exact (lexLE_cons _ _ _ _).mpr (Or.inr ⟨by omega, ih ys zs h1' h2'⟩)

theorem digitRunsAux_flatten (l : List Char) (acc : List Char) :
    (digitRunsAux l acc).flatten = acc.reverse ++ l.filter Char.isDigit := by
  induction l generalizing acc with
  | nil =>
      by_cases h : acc.isEmpty
      · simp [digitRunsAux, h, List.isEmpty_iff.mp h]
      · simp [digitRunsAux, h]
  | cons c rest ih =>
      by_cases hc : c.isDigit
      · simp [digitRunsAux, hc, ih (c :: acc), List.filter_cons]
      · by_cases ha : acc.isEmpty
        · simp [digitRunsAux, hc, ha, ih [], List.filter_cons, List.isEmpty_iff.mp ha]
        · simp [digitRunsAux, hc, ha, ih [], List.filter_cons]

theorem digitRunsAux_ne_nil (l : List Char) (acc : List Char) :
    digitRunsAux l acc ≠ [] ↔ (acc.isEmpty = false ∨ l.any Char.isDigit = true) := by
  induction l generalizing acc with
  | nil =>
      by_cases h : acc.isEmpty
      · simp [digitRunsAux, h]
      · simp [digitRunsAux, h, Bool.not_eq_true _ ▸ h]
  | cons c rest ih =>
      by_cases hc : c.isDigit
      · simp [digitRunsAux, hc, ih (c :: acc), List.any_cons]
      · by_cases ha : acc.isEmpty
        · simp [digitRunsAux, hc, ha, ih [], List.any_cons]
        · simp [digitRunsAux, hc, ha, List.any_cons]

/-- C10: the processing order of uploaded audio files is a pure function
of their names — `sorted_audio` permutes the list (determined solely by
the names) into an order pairwise-sorted lexicographically by
`sort_key`, where the key of a name containing digits is the
concatenation of all its digit runs (equivalently, all its digit
characters in order) zero-padded on the left to 20 characters, and the
key of a digitless name is the name itself. -/
theorem sorted_audio_spec (files : List String) :
    (sorted_audio files).Perm files ∧
    List.Pairwise (fun a b => lexLE (sort_key a).data (sort_key b).data = true)
      (sorted_audio files) ∧
    (∀ name : String, sort_key name =
      if name.data.any Char.isDigit then pyZfill ⟨name.data.filter Char.isDigit⟩ 20
      else name) := by
  refine ⟨List.mergeSort_perm _ _, ?_, ?_⟩
  · exact @List.sorted_mergeSort String
      (fun a b => lexLE (sort_key a).data (sort_key b).data)
      (fun a b c hab hbc => lexLE_trans _ _ _ hab hbc)
      (fun a b => by
        rcases lexLE_total (sort_key a).data (sort_key b).data with h | h <;> simp [h])
      files
  · intro name
    unfold sort_key digitRuns
    have hjoin := digitRunsAux_flatten name.data []
    have hne := digitRunsAux_ne_nil name.data []
    by_cases hd : name.data.any Char.isDigit
    · have : digitRunsAux name.data [] ≠ [] := hne.mpr (Or.inr hd)
      rw [if_pos this, if_pos hd]
      simp only [List.reverse_nil, List.nil_append] at hjoin
      rw [hjoin]
    · have : ¬ digitRunsAux name.data [] ≠ [] := by
        intro h
        rcases hne.mp h with h' | h'
        · simp at h'
        · exact hd h'
      rw [if_neg this, if_neg hd]

/- Substring-containment predicate and closure lemmas, used to state
that a rendered document contains a given fragment. -/

/-- `strHas hay piece` : `piece` occurs contiguously inside `hay`. -/
def strHas (hay piece : String) : Prop :=
  ∃ p q, hay = p ++ piece ++ q

theorem strHas_self (s : String) : strHas s s :=
  ⟨"", "", by simp⟩

theorem strHas_appendL {a piece : String} (h : strHas a piece) (b : String) :
    strHas (a ++ b) piece := by
  obtain ⟨p, q, rfl⟩ := h
  exact ⟨p, q ++ b, by simp [String.append_assoc]⟩

theorem strHas_appendR {b piece : String} (h : strHas b piece) (a : String) :
    strHas (a ++ b) piece := by
  obtain ⟨p, q, rfl⟩ := h
  exact ⟨a ++ p, q, by simp [String.append_assoc]⟩

/-- C7: `summary_to_html` is a total function of the summary dictionary —
whatever fields are absent, it renders a full document (beginning with
`<!DOCTYPE html>`), and when the `decisions`, `actions`, `concerns` or
`next_topics` key is missing or holds an empty list, the corresponding
section renders the `言及なし` placeholder instead of being omitted. -/
theorem summary_to_html_empty_sections (data : SummaryData) (labels : List String)
    (gen : String) :
    ((data.decisions.getD []).isEmpty = true →
      strHas (summary_to_html data labels gen) emptyNote) ∧
    ((data.actions.getD []).isEmpty = true →
      strHas (summary_to_html data labels gen) emptyNote) ∧
    ((data.concerns.getD []).isEmpty = true →
      strHas (summary_to_html data labels gen) emptyNote) ∧
    ((data.next_topics.getD []).isEmpty = true →
      strHas (summary_to_html data labels gen) emptyNoteLi) ∧
    strHas (summary_to_html data labels gen) "<!DOCTYPE html>" := by
  refine ⟨?_, ?_, ?_, ?_, ?_⟩
  · intro h
    have hD : decHtml data = emptyNote := by simp [decHtml, h]
    unfold summary_to_html
    apply strHas_appendL
    apply strHas_appendL
    apply strHas_appendL
    apply strHas_appendL
    apply strHas_appendL
    apply strHas_appendL
    apply strHas_appendL
    apply strHas_appendR
    rw [hD]
    exact strHas_self _
  · intro h
    have hA : actHtml data = emptyNote := by simp [actHtml, h]
    unfold summary_to_html
    apply strHas_appendL
    apply strHas_appendL
    apply strHas_appendL
    apply strHas_appendR
    rw [hA]
    exact strHas_self _
  · intro h
    have hC : conHtml data = emptyNote := by simp [conHtml, h]
    unfold summary_to_html
    apply strHas_appendL
    apply strHas_appendL
    apply strHas_appendL
    apply strHas_appendL
    apply strHas_appendL
    apply strHas_appendR
    rw [hC]
    exact strHas_self _
  · intro h
    have hN : nextHtml data = emptyNoteLi := by simp [nextHtml, h]
    unfold summary_to_html
    apply strHas_appendL
    apply strHas_appendR
    rw [hN]
    exact strHas_self _
  · unfold summary_to_html htmlPrefix
    repeat apply strHas_appendL
    exact ⟨"", "\n<html lang=\"ja\">\n<head>\n<meta charset=\"UTF-8\">\n<meta name=\"viewport\" content=\"width=device-width,initial-scale=1\">\n<title>", by rfl⟩

/-- C7 witness: the empty summary dictionary renders with the
`言及なし` placeholder (shown here for the decisions section) and a full
document skeleton. -/
theorem summary_to_html_empty_sections_witness :
    (emptySummary.decisions.getD []).isEmpty = true ∧
    strHas (summary_to_html emptySummary ["a.mp3"] "2026-10-12 00:00") emptyNote :=
  ⟨rfl, (summary_to_html_empty_sections emptySummary ["a.mp3"] "2026-10-12 00:00").1 rfl⟩

/-- C9: the action rows of the rendered HTML come from `actionsSorted`,
which permutes the `actions` list (dropping and duplicating nothing)
into an order pairwise-nondecreasing in `actionRank`, where `高` ranks
before `中` and `中` before `低`, and an action whose priority is
missing or not one of the three values is ranked exactly like `中`. -/
theorem actions_sorted_by_priority (data : SummaryData) :
    (actionsSorted data).Perm (data.actions.getD []) ∧
    List.Pairwise (fun a b => actionRank a ≤ actionRank b) (actionsSorted data) ∧
    ((data.actions.getD []).isEmpty = false →
      actHtml data = String.join ((actionsSorted data).map actionRowHtml)) ∧
    priorityRank "高" < priorityRank "中" ∧ priorityRank "中" < priorityRank "低" ∧
    (∀ a : ActionItem, a.priority = none → actionRank a = priorityRank "中") ∧
    (∀ a : ActionItem, ∀ p, a.priority = some p → p ≠ "高" → p ≠ "中" → p ≠ "低" →
      actionRank a = priorityRank "中") := by
  refine ⟨List.mergeSort_perm _ _, ?_, ?_, by decide, by decide, ?_, ?_⟩
  · have hp := @List.sorted_mergeSort ActionItem
      (fun a b => decide (actionRank a ≤ actionRank b))
      (fun a b c hab hbc =>
        decide_eq_true (le_trans (of_decide_eq_true hab) (of_decide_eq_true hbc)))
      (fun a b => by
        rcases le_total (actionRank a) (actionRank b) with h | h <;> simp [h])
      (data.actions.getD [])
    exact hp.imp (fun h => of_decide_eq_true h)
  · intro h
    simp [actHtml, h]
  · intro a h
    simp [actionRank, h]
  · intro a p h hp1 hp2 hp3
    simp [actionRank, h, priorityRank, hp1, hp2, hp3]

/-- C9 witness: an action with no priority key is ranked exactly like an
explicit `中`. -/
theorem actions_sorted_by_priority_witness :
    actionRank ⟨none, none, none, none⟩ = priorityRank "中" :=
  (actions_sorted_by_priority emptySummary).2.2.2.2.2.1 ⟨none, none, none, none⟩ rfl

/-- C6 witness: the prompt for the 12001-character transcript equals the
prompt for its 12000-character truncation. -/
theorem generate_report_prompt_budget_witness :
    buildPrompt overLongText ["memo.mp3"] (some "資料テキスト") =
      buildPrompt (pySlice overLongText MAX_TRANSCRIPT_CHARS) ["memo.mp3"] (some "資料テキスト") :=
  (generate_report_prompt_budget overLongText (pySlice overLongText MAX_TRANSCRIPT_CHARS)
    ["memo.mp3"] (some "資料テキスト") (some "資料テキスト")
    (by simp [pySlice, List.take_take])
    rfl rfl
    (fun s s' hs hs' => by rw [← Option.some.inj hs, ← Option.some.inj hs'])).1

end VoiceMemo
